import Mathlib

/-!
Shallow embedding of the mongo-update-upsert-demo repository.

The repository is a Node.js teaching demo around MongoDB `updateOne` with
and without `{ upsert: true }`:
  * `src/demo.js` (`runUpdateUpsertDemo`): seed a contact, then run
    Step A (update existing), Step B (update missing, no upsert),
    Step C (upsert missing), normalize each raw result and snapshot the
    collection sorted by email with `_id` projected out.
  * `src/server.js`: Express endpoints `/run-demo`, `/clear-data`,
    `/insert-sample`, `/list-contacts`, `/upsert-contact`.

The embedding models the contact collection as a list of stored documents
(an internal numeric `_id` plus the contact fields), and `updateOne` with
MongoDB's single-document semantics: the first document matching the
filter is updated in place; with `upsert:true` and no match, a new
document is created from the filter's equality fields, `$setOnInsert`
and `$set`; `modifiedCount` counts only documents whose content actually
changed.  Timestamps (`new Date()`) are modelled as natural numbers
supplied by the caller, and freshly generated ObjectIds as caller-supplied
natural numbers.
-/

namespace MongoDemo

/-- JavaScript values as they can appear in a JSON request body field.
Arrays are arrays of strings (the only arrays the demo stores are tag
lists). -/
inductive JsVal where
  | str : String → JsVal
  | num : Int → JsVal
  | bool : Bool → JsVal
  | null : JsVal
  | arr : List String → JsVal
deriving Repr, DecidableEq

/-- JavaScript truthiness of a value, as used by `if (!email)` and the
`name ? ... : ...` / `city ? ... : ...` conditional spreads in
`src/server.js`. -/
def truthy : JsVal → Bool
  | .str s => s != ""
  | .num n => n != 0
  | .bool b => b
  | .null => false
  | .arr _ => true

/-- A contact document's user-visible fields (everything except the
internal `_id`).  `email` is the identifying key; all other fields are
optional (absent when the document was created without them).  Timestamps
are modelled as naturals. -/
structure Contact where
  email : String
  name : Option String := none
  city : Option String := none
  tags : Option (List String) := none
  createdAt : Option Nat := none
  updatedAt : Option Nat := none
deriving Repr, DecidableEq

/-- A document as stored in the collection: the internal storage key
`_id` (modelled as a natural) plus the contact fields. -/
structure StoredDoc where
  oid : Nat
  doc : Contact
deriving Repr, DecidableEq

/-- A `$set` (or `$setOnInsert`) document: for each contact field,
`some v` means the operator assigns `v` to that field, `none` means the
field is not mentioned by the operator. -/
structure SetDoc where
  email : Option String := none
  name : Option String := none
  city : Option String := none
  tags : Option (List String) := none
  createdAt : Option Nat := none
  updatedAt : Option Nat := none
deriving Repr, DecidableEq

/-- Apply one field of a `$set` document: an assigned value overwrites,
an unmentioned field keeps its old value. -/
def setField {α : Type} (new old : Option α) : Option α :=
  match new with
  | some v => some v
  | none => old

/-- Apply a `$set` document to a contact (MongoDB `$set` semantics:
mentioned fields are overwritten, unmentioned fields are untouched). -/
def applySet (s : SetDoc) (c : Contact) : Contact :=
  { email := s.email.getD c.email
    name := setField s.name c.name
    city := setField s.city c.city
    tags := setField s.tags c.tags
    createdAt := setField s.createdAt c.createdAt
    updatedAt := setField s.updatedAt c.updatedAt }

/-- The base document created by an upsert-triggered insert before any
update operators run: just the filter's equality field (`email` in every
filter this repository uses). -/
def emptyContact (e : String) : Contact :=
  { email := e }

/-- An `updateOne` update document: its `$set` and `$setOnInsert`
operators (each possibly empty). -/
structure UpdateSpec where
  set : SetDoc := {}
  setOnInsert : SetDoc := {}
deriving Repr, DecidableEq

/-- The raw driver result of an `updateOne` call: `matchedCount`,
`modifiedCount` and `upsertedId` (present only when an insert
happened). -/
structure UpdateResult where
  matchedCount : Nat
  modifiedCount : Nat
  upsertedId : Option Nat
deriving Repr, DecidableEq

/-- Update the first document whose `email` equals the filter value,
applying the `$set` document `s` to it; returns the new list and, when a
match was found, the pair (old contact, updated contact). -/
def updateFirst (e : String) (s : SetDoc) : List StoredDoc → List StoredDoc × Option (Contact × Contact)
  | [] => ([], none)
  | d :: rest =>
    if d.doc.email = e then
      (⟨d.oid, applySet s d.doc⟩ :: rest, some (d.doc, applySet s d.doc))
    else
      let r := updateFirst e s rest
      (d :: r.1, r.2)

/-- The document created when an upsert finds no match: the filter's
equality fields, then `$setOnInsert`, then `$set` (the operators touch
disjoint fields in every call this repository makes, so the order is
immaterial). -/
def insertedDoc (e : String) (u : UpdateSpec) : Contact :=
  applySet u.set (applySet u.setOnInsert (emptyContact e))

/-- MongoDB `updateOne` on a collection, with a `{ email: e }` filter.
At most one document is updated (the first match).  With `upsert = true`
and no match, a new document with fresh internal id `fresh` is inserted.
`modifiedCount` is 1 only if the update actually changed the document. -/
def updateOne (col : List StoredDoc) (e : String) (u : UpdateSpec) (upsert : Bool) (fresh : Nat) :
    List StoredDoc × UpdateResult :=
  match (updateFirst e u.set col).2 with
  | some (old, nw) =>
      ((updateFirst e u.set col).1,
        { matchedCount := 1, modifiedCount := if nw = old then 0 else 1, upsertedId := none })
  | none =>
      if upsert then
        (col ++ [⟨fresh, insertedDoc e u⟩],
          { matchedCount := 0, modifiedCount := 0, upsertedId := some fresh })
      else
        (col, { matchedCount := 0, modifiedCount := 0, upsertedId := none })

/-- Number of documents in the collection matching a `{ email: e }`
filter. -/
def matchCount (col : List StoredDoc) (e : String) : Nat :=
  col.countP (fun d => d.doc.email == e)

/-- The normalized shape of an operation result produced by `normalize`
in `src/demo.js`: `upsertedId` becomes its string form or stays null. -/
structure NormResult where
  matched : Nat
  modified : Nat
  upsertedId : Option String
deriving Repr, DecidableEq

/-- `normalize` from `src/demo.js`: `matchedCount ?? 0`,
`modifiedCount ?? 0`, `upsertedId?.toString() ?? null`.  The counts are
always present in the model, so the `?? 0` fallbacks are identities. -/
def normalize (r : UpdateResult) : NormResult :=
  { matched := r.matchedCount
    modified := r.modifiedCount
    upsertedId := r.upsertedId.map toString }

/-- The seed write of `runUpdateUpsertDemo`: upsert on
`aarti@shade.org.in` with only `$setOnInsert` fields. -/
def demoSeedSpec : UpdateSpec :=
  { setOnInsert := { email := some "aarti@shade.org.in", name := some "Aarti", city := some "Chennai" } }

/-- Step A of the demo: `$set: { city: "Chennai (Adyar)" }`, no upsert. -/
def demoStepASpec : UpdateSpec :=
  { set := { city := some "Chennai (Adyar)" } }

/-- Step B of the demo: `$set: { city: "Mumbai" }`, no upsert. -/
def demoStepBSpec : UpdateSpec :=
  { set := { city := some "Mumbai" } }

/-- Step C of the demo: `$set: { city: "Mumbai" }` plus
`$setOnInsert: { createdAt: new Date(), tags: ["Prospect"] }`, with
upsert. -/
def demoStepCSpec (now : Nat) : UpdateSpec :=
  { set := { city := some "Mumbai" }
    setOnInsert := { createdAt := some now, tags := some ["Prospect"] } }

/-- Ordering of stored documents by their email, used for the
`.sort({ email: 1 })` snapshots. -/
def emailLe (a b : StoredDoc) : Prop := a.doc.email ≤ b.doc.email

instance : DecidableRel emailLe := fun a b =>
  inferInstanceAs (Decidable (a.doc.email ≤ b.doc.email))

instance : IsTotal StoredDoc emailLe :=
  ⟨fun a b => le_total a.doc.email b.doc.email⟩

instance : IsTrans StoredDoc emailLe :=
  ⟨fun _ _ _ h1 h2 => le_trans h1 h2⟩

/-- Sort the collection by email ascending. -/
def sortByEmail (col : List StoredDoc) : List StoredDoc :=
  List.insertionSort emailLe col

/-- The report assembled by `runUpdateUpsertDemo`. -/
structure Report where
  updateExisting : NormResult
  updateMissingNoUpsert : NormResult
  upsertMissing : NormResult
  finalDocs : List Contact
deriving Repr, DecidableEq

/-- The demo orchestrator script from `src/demo.js`, run against the
current collection state: seed Aarti (result discarded), Step A, Step B,
Step C, then a final snapshot sorted by email with `_id` projected out.
`now` models Step C's `new Date()`; `seedId` and `upsertId` model the
ObjectIds minted if the seed or Step C insert. -/
def runUpdateUpsertDemo (col : List StoredDoc) (now seedId upsertId : Nat) :
    Report × List StoredDoc :=
  let s0 := (updateOne col "aarti@shade.org.in" demoSeedSpec true seedId).1
  let a := updateOne s0 "aarti@shade.org.in" demoStepASpec false 0
  let b := updateOne a.1 "missing@example.com" demoStepBSpec false 0
  let c := updateOne b.1 "missing@example.com" (demoStepCSpec now) true upsertId
  ({ updateExisting := normalize a.2
     updateMissingNoUpsert := normalize b.2
     upsertMissing := normalize c.2
     finalDocs := (sortByEmail c.1).map StoredDoc.doc }, c.1)

/-- JavaScript `parseInt(s, 10)`: skip leading whitespace, optional
sign, then the longest prefix of decimal digits; no digits means `NaN`,
modelled as `none`. -/
def parseIntJs (s : String) : Option Int :=
  let cs := s.toList.dropWhile (fun ch => ch.isWhitespace)
  let signAndRest : Int × List Char :=
    match cs with
    | '-' :: t => (-1, t)
    | '+' :: t => (1, t)
    | t => (1, t)
  let ds := signAndRest.2.takeWhile (fun ch => ch.isDigit)
  if ds.isEmpty then none
  else some (signAndRest.1 * (ds.foldl (fun acc ch => acc * 10 + (ch.toNat - '0'.toNat)) 0 : Nat))

/-- JavaScript `q || d` on an optional query-string value: an absent or
empty value falls back to the default string. -/
def orDefault (q : Option String) (d : String) : String :=
  match q with
  | none => d
  | some s => if s = "" then d else s

/-- The effective page number of `/list-contacts`:
`Math.max(1, parseInt(req.query.page || "1", 10))`.  `Math.max` with a
`NaN` argument is `NaN`, so a non-numeric value propagates as `none`. -/
def effectivePage (q : Option String) : Option Int :=
  (parseIntJs (orDefault q "1")).map (fun n => max 1 n)

/-- The effective page size of `/list-contacts`:
`Math.min(100, Math.max(1, parseInt(req.query.pageSize || "10", 10)))`;
`NaN` propagates as `none`. -/
def effectivePageSize (q : Option String) : Option Int :=
  (parseIntJs (orDefault q "10")).map (fun n => min 100 (max 1 n))

/-- The `/list-contacts` filter: exact `city` match when a non-empty
(trimmed) city is given, and `tags: tag` membership when a non-empty
(trimmed) tag is given (a MongoDB equality filter on an array field
matches documents whose array contains the value). -/
def matchesListFilter (cityF tagF : String) (c : Contact) : Bool :=
  (cityF == "" || c.city == some cityF) && (tagF == "" || (c.tags.getD []).contains tagF)

/-- Query parameters of `GET /list-contacts`; `none` is an absent
parameter. -/
structure ListQuery where
  page : Option String := none
  pageSize : Option String := none
  city : Option String := none
  tag : Option String := none
deriving Repr, DecidableEq

/-- The successful `/list-contacts` result payload. -/
structure ListResult where
  page : Int
  pageSize : Int
  total : Nat
  docs : List Contact
deriving Repr, DecidableEq

/-- `GET /list-contacts`: clamp page and pageSize, build the filter from
trimmed `city`/`tag`, count the matches, and return the requested slice
of the matches sorted by email ascending with `_id` projected out.
When `page` or `pageSize` parses to `NaN` the computed skip is `NaN` and
the driver call fails (the handler answers 500); that failure is
modelled as `none`. -/
def listContacts (col : List StoredDoc) (q : ListQuery) : Option ListResult :=
  match effectivePage q.page, effectivePageSize q.pageSize with
  | some p, some ps =>
      let cityF := (q.city.getD "").trim
      let tagF := (q.tag.getD "").trim
      let matching := col.filter (fun d => matchesListFilter cityF tagF d.doc)
      some { page := p
             pageSize := ps
             total := matching.length
             docs := (((sortByEmail matching).drop ((p - 1) * ps).toNat).take ps.toNat).map StoredDoc.doc }
  | _, _ => none

/-- The JSON body of `POST /upsert-contact`; `none` is an absent field.
`email` and `tags` keep their JavaScript value (the handler tests
truthiness resp. `Array.isArray` on them); `name` and `city` are the
string fields the demo sends, with `some ""` the falsy empty string. -/
structure ReqBody where
  email : Option JsVal := none
  name : Option String := none
  city : Option String := none
  tags : Option JsVal := none
deriving Repr, DecidableEq

/-- The conditional spread `...(x ? { x } : {})` for a string field: the
field enters the `$set` document only when truthy (non-empty). -/
def strField (v : Option String) : Option String :=
  match v with
  | some s => if s = "" then none else some s
  | none => none

/-- The conditional spread `...(Array.isArray(tags) ? { tags } : {})`:
the field enters the `$set` document only when the value is an array. -/
def arrField (v : Option JsVal) : Option (List String) :=
  match v with
  | some (.arr xs) => some xs
  | _ => none

/-- The `$set` document built by `POST /upsert-contact`: truthy `name`
and `city`, `tags` when an array, and always `updatedAt: new Date()`. -/
def ucSetDoc (b : ReqBody) (nowSet : Nat) : SetDoc :=
  { name := strField b.name
    city := strField b.city
    tags := arrField b.tags
    updatedAt := some nowSet }

/-- The filter value `{ email }` as a collection key.  Every truthy email
this system sends is a string; non-string values never match the
string-keyed store and are mapped to the empty key. -/
def emailKey : JsVal → String
  | .str s => s
  | _ => ""

/-- The result object `POST /upsert-contact` returns on success:
`{ matched, modified, upsertedId: r.upsertedId ?? null }`. -/
structure UCResult where
  matched : Nat
  modified : Nat
  upsertedId : Option Nat
deriving Repr, DecidableEq

/-- An HTTP response of `POST /upsert-contact`. -/
structure UCResp where
  status : Nat
  ok : Bool
  error : Option String := none
  result : Option UCResult := none
deriving Repr, DecidableEq

/-- The destructuring `const { email } = req.body || {}`: a missing body
behaves like an empty object. -/
def emailOf (body : Option ReqBody) : Option JsVal :=
  (body.getD {}).email

/-- The 400 response `{ ok:false, error:"email is required" }`. -/
def emailRequiredResp : UCResp :=
  { status := 400, ok := false, error := some "email is required" }

/-- `POST /upsert-contact` from `src/server.js`: reject falsy `email`
with 400 before any write; otherwise `updateOne` with upsert, `$set`
built by `ucSetDoc` and `$setOnInsert: { createdAt: new Date() }`.
`nowSet` and `nowIns` model the two `new Date()` calls and `fresh` the
ObjectId minted on insert. -/
def upsertContact (body : Option ReqBody) (col : List StoredDoc) (nowSet nowIns fresh : Nat) :
    UCResp × List StoredDoc :=
  match emailOf body with
  | none => (emailRequiredResp, col)
  | some v =>
      if truthy v then
        let b := body.getD {}
        let r := updateOne col (emailKey v)
          { set := ucSetDoc b nowSet, setOnInsert := { createdAt := some nowIns } } true fresh
        ({ status := 200, ok := true
           result := some ⟨r.2.matchedCount, r.2.modifiedCount, r.2.upsertedId⟩ }, r.1)
      else
        (emailRequiredResp, col)

/-- First bulk op of `POST /insert-sample` (Aarti), `$setOnInsert` only. -/
def sampleSpec1 (now : Nat) : UpdateSpec :=
  { setOnInsert := { email := some "aarti@shade.org.in", name := some "Aarti",
                     city := some "Chennai", tags := some ["Volunteer"], createdAt := some now } }

/-- Second bulk op of `POST /insert-sample` (Rahul), `$setOnInsert` only. -/
def sampleSpec2 (now : Nat) : UpdateSpec :=
  { setOnInsert := { email := some "rahul@example.com", name := some "Rahul",
                     city := some "Bengaluru", tags := some ["Donor"], createdAt := some now } }

/-- Third bulk op of `POST /insert-sample` (Latha), `$setOnInsert` only. -/
def sampleSpec3 (now : Nat) : UpdateSpec :=
  { setOnInsert := { email := some "latha@example.com", name := some "Latha",
                     city := some "Mumbai", tags := some ["Prospect"], createdAt := some now } }

/-- `POST /insert-sample`: bulk-upsert the three fixed sample contacts
(unordered in the source; all three ops succeed in the model, so the
sequential order is immaterial) and report aggregate counts
(matched, modified, upserts). -/
def insertSample (col : List StoredDoc) (now f1 f2 f3 : Nat) :
    List StoredDoc × (Nat × Nat × Nat) :=
  let r1 := updateOne col "aarti@shade.org.in" (sampleSpec1 now) true f1
  let r2 := updateOne r1.1 "rahul@example.com" (sampleSpec2 now) true f2
  let r3 := updateOne r2.1 "latha@example.com" (sampleSpec3 now) true f3
  (r3.1,
   (r1.2.matchedCount + r2.2.matchedCount + r3.2.matchedCount,
    r1.2.modifiedCount + r2.2.modifiedCount + r3.2.modifiedCount,
    (if r1.2.upsertedId.isSome then 1 else 0) + (if r2.2.upsertedId.isSome then 1 else 0)
      + (if r3.2.upsertedId.isSome then 1 else 0)))

/-- The truthiness test `if (!email)` applied to the (possibly missing)
request body of `POST /upsert-contact`. -/
def emailTruthyB (body : Option ReqBody) : Bool :=
  match emailOf body with
  | some v => truthy v
  | none => false

/-- The `{ email }` filter key the handler would use for the given body
(meaningful only when the email is truthy). -/
def emailKeyOf (body : Option ReqBody) : String :=
  match emailOf body with
  | some v => emailKey v
  | none => ""

/-! ### Helper lemmas about the update machinery -/

theorem setField_idem {α : Type} (n o : Option α) : setField n (setField n o) = setField n o := by
  cases n <;> rfl

theorem applySet_idem (s : SetDoc) (c : Contact) : applySet s (applySet s c) = applySet s c := by
  cases hse : s.email <;> simp [applySet, setField_idem, hse]

theorem applySet_email_eq (s : SetDoc) (c : Contact) (hs : s.email = none) :
    (applySet s c).email = c.email := by
  simp [applySet, hs]

theorem updateFirst_length (e : String) (s : SetDoc) :
    ∀ col : List StoredDoc, (updateFirst e s col).1.length = col.length := by
  intro col
  induction col with
  | nil => rfl
  | cons d rest ih => by_cases h : d.doc.email = e <;> simp [updateFirst, h, ih]

theorem matchCount_nil (e : String) : matchCount [] e = 0 := rfl

theorem matchCount_cons (d : StoredDoc) (rest : List StoredDoc) (e : String) :
    matchCount (d :: rest) e = matchCount rest e + (if d.doc.email = e then 1 else 0) := by
  by_cases h : d.doc.email = e <;> simp [matchCount, List.countP_cons, h]

theorem matchCount_append (l1 l2 : List StoredDoc) (e : String) :
    matchCount (l1 ++ l2) e = matchCount l1 e + matchCount l2 e := by
  simp [matchCount, List.countP_append]

theorem updateFirst_snd_none_iff (e : String) (s : SetDoc) :
    ∀ col : List StoredDoc, (updateFirst e s col).2 = none ↔ matchCount col e = 0 := by
  intro col
  induction col with
  | nil => simp [updateFirst, matchCount_nil]
  | cons d rest ih =>
      by_cases h : d.doc.email = e <;> simp [updateFirst, h, matchCount_cons, ih]

theorem updateFirst_matchCount (e : String) (s : SetDoc) (e' : String) (hs : s.email = none) :
    ∀ col : List StoredDoc, matchCount (updateFirst e s col).1 e' = matchCount col e' := by
  intro col
  induction col with
  | nil => rfl
  | cons d rest ih =>
      by_cases h : d.doc.email = e <;>
        simp [updateFirst, h, matchCount_cons, ih, applySet_email_eq _ _ hs]

theorem insertedDoc_email (e : String) (u : UpdateSpec) (hset : u.set.email = none)
    (hsoi : u.setOnInsert.email = none) : (insertedDoc e u).email = e := by
  simp [insertedDoc, applySet, emptyContact, hset, hsoi]

theorem updateOne_of_some (col : List StoredDoc) (e : String) (u : UpdateSpec) (up : Bool)
    (f : Nat) (old nw : Contact) (h : (updateFirst e u.set col).2 = some (old, nw)) :
    updateOne col e u up f =
      ((updateFirst e u.set col).1,
        { matchedCount := 1, modifiedCount := if nw = old then 0 else 1, upsertedId := none }) := by
  simp only [updateOne, h]

theorem updateOne_of_none_upsert (col : List StoredDoc) (e : String) (u : UpdateSpec) (f : Nat)
    (h : (updateFirst e u.set col).2 = none) :
    updateOne col e u true f =
      (col ++ [⟨f, insertedDoc e u⟩],
        { matchedCount := 0, modifiedCount := 0, upsertedId := some f }) := by
  simp only [updateOne, h, if_pos]

theorem updateOne_of_none_noupsert (col : List StoredDoc) (e : String) (u : UpdateSpec) (f : Nat)
    (h : (updateFirst e u.set col).2 = none) :
    updateOne col e u false f =
      (col, { matchedCount := 0, modifiedCount := 0, upsertedId := none }) := by
  simp only [updateOne, h]
  rfl

theorem updateFirst_snd_some_of_pos (e : String) (s : SetDoc) (col : List StoredDoc)
    (h : 0 < matchCount col e) : ∃ old nw, (updateFirst e s col).2 = some (old, nw) := by
  cases hm : (updateFirst e s col).2 with
  | none =>
      rw [updateFirst_snd_none_iff] at hm
      omega
  | some p =>
      obtain ⟨old, nw⟩ := p
      exact ⟨old, nw, rfl⟩

theorem matchCount_pos_of_updateFirst_some (e : String) (s : SetDoc) (col : List StoredDoc)
    (old nw : Contact) (h : (updateFirst e s col).2 = some (old, nw)) : 0 < matchCount col e := by
  by_contra hc
  have h0 : matchCount col e = 0 := by omega
  rw [← updateFirst_snd_none_iff e s col] at h0
  rw [h0] at h
  cases h

theorem updateOne_matchedCount (col : List StoredDoc) (e : String) (u : UpdateSpec) (up : Bool)
    (f : Nat) :
    (updateOne col e u up f).2.matchedCount = if 0 < matchCount col e then 1 else 0 := by
  cases hm : (updateFirst e u.set col).2 with
  | none =>
      have h0 : matchCount col e = 0 := (updateFirst_snd_none_iff e u.set col).mp hm
      cases up
      · rw [updateOne_of_none_noupsert col e u f hm]
        simp [h0]
      · rw [updateOne_of_none_upsert col e u f hm]
        simp [h0]
  | some p =>
      have hpos := matchCount_pos_of_updateFirst_some e u.set col p.1 p.2 (by rw [hm])
      rw [updateOne_of_some col e u up f p.1 p.2 (by rw [hm])]
      simp [hpos]

theorem updateOne_matchCount_ne (col : List StoredDoc) (e : String) (u : UpdateSpec) (up : Bool)
    (f : Nat) (e' : String) (hset : u.set.email = none) (hne : (insertedDoc e u).email ≠ e') :
    matchCount (updateOne col e u up f).1 e' = matchCount col e' := by
  cases hm : (updateFirst e u.set col).2 with
  | none =>
      cases up
      · rw [updateOne_of_none_noupsert col e u f hm]
      · rw [updateOne_of_none_upsert col e u f hm]
        simp [matchCount_append, matchCount_cons, matchCount_nil, hne]
  | some p =>
      rw [updateOne_of_some col e u up f p.1 p.2 (by rw [hm])]
      exact updateFirst_matchCount e u.set e' hset col

theorem updateOne_upsert_matchCount_pos (col : List StoredDoc) (e : String) (u : UpdateSpec)
    (f : Nat) (hset : u.set.email = none) (hsoi : u.setOnInsert.email = none) :
    0 < matchCount (updateOne col e u true f).1 e := by
  cases hm : (updateFirst e u.set col).2 with
  | none =>
      rw [updateOne_of_none_upsert col e u f hm]
      simp [matchCount_append, matchCount_cons, matchCount_nil,
        insertedDoc_email e u hset hsoi]
  | some p =>
      have hpos := matchCount_pos_of_updateFirst_some e u.set col p.1 p.2 (by rw [hm])
      rw [updateOne_of_some col e u true f p.1 p.2 (by rw [hm])]
      rw [updateFirst_matchCount e u.set e hset col]
      exact hpos

theorem updateFirst_fixpoint (e : String) (s : SetDoc) (hs : s.email = none) :
    ∀ (col : List StoredDoc) (old nw : Contact), (updateFirst e s col).2 = some (old, nw) →
      updateFirst e s (updateFirst e s col).1 = ((updateFirst e s col).1, some (nw, nw)) := by
  intro col
  induction col with
  | nil => intro old nw h; cases h
  | cons d rest ih =>
      intro old nw h
      by_cases hd : d.doc.email = e
      · simp only [updateFirst, if_pos hd] at h ⊢
        have hem : (applySet s d.doc).email = e := by
          rw [applySet_email_eq s d.doc hs]; exact hd
        simp only [updateFirst, hem, if_pos, applySet_idem]
        have hnw : nw = applySet s d.doc := by
          injection h with h1
          injection h1 with _ h2
          exact h2.symm
        rw [hnw]
      · simp only [updateFirst, if_neg hd] at h ⊢
        have := ih old nw h
        simp only [updateFirst, if_neg hd, this]

/-! ### Claim theorems -/

/-- C2: For every Upsert call, the returned result has a present
`upsertedId` if and only if the call inserted a new document; when the
filter matches zero documents the total document count increases by
exactly 1 and `upsertedId` is present, and when the filter matches at
least one document `upsertedId` is never populated. -/
theorem upsert_upsertedId_iff_insert (col : List StoredDoc) (e : String) (u : UpdateSpec)
    (f : Nat) :
    ((updateOne col e u true f).2.upsertedId.isSome = true ↔
      (updateOne col e u true f).1.length = col.length + 1) ∧
    (matchCount col e = 0 →
      (updateOne col e u true f).1.length = col.length + 1 ∧
      (updateOne col e u true f).2.upsertedId.isSome = true) ∧
    (0 < matchCount col e → (updateOne col e u true f).2.upsertedId = none) := by
  cases hm : (updateFirst e u.set col).2 with
  | none =>
      have h0 := (updateFirst_snd_none_iff e u.set col).mp hm
      rw [updateOne_of_none_upsert col e u f hm]
      refine ⟨by simp, fun _ => by simp, fun hpos => by omega⟩
  | some p =>
      have hpos := matchCount_pos_of_updateFirst_some e u.set col p.1 p.2 (by rw [hm])
      rw [updateOne_of_some col e u true f p.1 p.2 (by rw [hm])]
      refine ⟨?_, fun h0 => by omega, fun _ => rfl⟩
      have hlen := updateFirst_length e u.set col
      simp [hlen]

/-- Witness for C2: on the empty collection, the Step-C-style upsert
inserts one document and reports a present `upsertedId`. -/
theorem upsert_upsertedId_iff_insert_witness :
    (updateOne ([] : List StoredDoc) "a@x.com" (demoStepCSpec 5) true 9).1.length =
        ([] : List StoredDoc).length + 1 ∧
    (updateOne ([] : List StoredDoc) "a@x.com" (demoStepCSpec 5) true 9).2.upsertedId.isSome = true :=
  (upsert_upsertedId_iff_insert [] "a@x.com" (demoStepCSpec 5) 9).2.1 (by decide)

/-- C3: a ConditionalUpdate (no upsert) whose filter matches zero
documents returns the normal result `matched=0, modified=0,
upsertedId=absent` and leaves the collection unchanged (in particular
the total document count is unchanged); in the model the operation is a
total function, i.e. this outcome is a value, not an error. -/
theorem condUpdate_zero_match_noop (col : List StoredDoc) (e : String) (u : UpdateSpec) (f : Nat)
    (h : matchCount col e = 0) :
    (updateOne col e u false f).1 = col ∧
    normalize (updateOne col e u false f).2 =
      { matched := 0, modified := 0, upsertedId := none } := by
  have hm := (updateFirst_snd_none_iff e u.set col).mpr h
  rw [updateOne_of_none_noupsert col e u f hm]
  exact ⟨rfl, rfl⟩

/-- Witness for C3: Step B's update against a collection holding only
Aarti leaves the collection unchanged and normalizes to all zeroes. -/
theorem condUpdate_zero_match_noop_witness :
    (updateOne [⟨1, { email := "aarti@shade.org.in" }⟩] "missing@example.com" demoStepBSpec
        false 0).1 = [⟨1, { email := "aarti@shade.org.in" }⟩] ∧
    normalize (updateOne [⟨1, { email := "aarti@shade.org.in" }⟩] "missing@example.com"
        demoStepBSpec false 0).2 = { matched := 0, modified := 0, upsertedId := none } :=
  condUpdate_zero_match_noop [⟨1, { email := "aarti@shade.org.in" }⟩] "missing@example.com"
    demoStepBSpec 0 (by decide)

/-- C4: applying the same ConditionalUpdate twice to a matching document
(with a `$set` that does not rewrite the identifying key and whose first
application actually changes the document) reports `matched=1,
modified=1` the first time and `matched=1, modified=0` the second time,
and the collection after the second call is identical to the collection
after the first. -/
theorem condUpdate_idempotent (col : List StoredDoc) (e : String) (s soi : SetDoc)
    (old nw : Contact) (f1 f2 : Nat) (hs : s.email = none)
    (h : (updateFirst e s col).2 = some (old, nw)) (hch : nw ≠ old) :
    (updateOne col e ⟨s, soi⟩ false f1).2 =
      { matchedCount := 1, modifiedCount := 1, upsertedId := none } ∧
    (updateOne (updateOne col e ⟨s, soi⟩ false f1).1 e ⟨s, soi⟩ false f2).2 =
      { matchedCount := 1, modifiedCount := 0, upsertedId := none } ∧
    (updateOne (updateOne col e ⟨s, soi⟩ false f1).1 e ⟨s, soi⟩ false f2).1 =
      (updateOne col e ⟨s, soi⟩ false f1).1 := by
  have h1 := updateOne_of_some col e ⟨s, soi⟩ false f1 old nw h
  have e1 : (updateOne col e ⟨s, soi⟩ false f1).1 = (updateFirst e s col).1 := by rw [h1]
  have r1 : (updateOne col e ⟨s, soi⟩ false f1).2 =
      { matchedCount := 1, modifiedCount := if nw = old then 0 else 1, upsertedId := none } := by
    rw [h1]
  have hfix := updateFirst_fixpoint e s hs col old nw h
  have hfix2 : (updateFirst e s (updateFirst e s col).1).2 = some (nw, nw) := by rw [hfix]
  have hfix1 : (updateFirst e s (updateFirst e s col).1).1 = (updateFirst e s col).1 := by
    rw [hfix]
  have h2 := updateOne_of_some (updateFirst e s col).1 e ⟨s, soi⟩ false f2 nw nw hfix2
  refine ⟨?_, ?_, ?_⟩
  · rw [r1, if_neg hch]
  · rw [e1, h2]
    simp
  · rw [e1, h2]
    exact hfix1

/-- Witness for C4: re-running Step A's city update on a collection where
Aarti's city is "Chennai" gives `modified=0` the second time. -/
theorem condUpdate_idempotent_witness :
    (updateOne (updateOne [⟨1, { email := "aarti@shade.org.in", city := some "Chennai" }⟩]
        "aarti@shade.org.in" ⟨{ city := some "Chennai (Adyar)" }, {}⟩ false 0).1
      "aarti@shade.org.in" ⟨{ city := some "Chennai (Adyar)" }, {}⟩ false 0).2 =
      { matchedCount := 1, modifiedCount := 0, upsertedId := none } :=
  (condUpdate_idempotent [⟨1, { email := "aarti@shade.org.in", city := some "Chennai" }⟩]
    "aarti@shade.org.in" { city := some "Chennai (Adyar)" } {}
    { email := "aarti@shade.org.in", city := some "Chennai" }
    { email := "aarti@shade.org.in", city := some "Chennai (Adyar)" }
    0 0 rfl (by decide) (by decide)).2.1

/-- Projection of `normalize`: `matched` is the raw `matchedCount`. -/
theorem normalize_matched (r : UpdateResult) : (normalize r).matched = r.matchedCount := rfl

/-- A ConditionalUpdate with no matching document is a no-op with an
all-zero normalized result (helper shared by several claims). -/
theorem condUpdate_noop (col : List StoredDoc) (e : String) (u : UpdateSpec) (f : Nat)
    (h : matchCount col e = 0) :
    (updateOne col e u false f).1 = col ∧
    normalize (updateOne col e u false f).2 =
      { matched := 0, modified := 0, upsertedId := none } := by
  have hm := (updateFirst_snd_none_iff e u.set col).mpr h
  rw [updateOne_of_none_noupsert col e u f hm]
  exact ⟨rfl, rfl⟩

/-- C1 counterexample: running the demo script a second time against the
store left by a first run reports `matched=1` for Step B — the Step B
filter `{email:"missing@example.com"}` does match an existing contact
(the one Step C of the previous run inserted), contradicting the claim
that it matches nothing regardless of how many times the script has run.
This reproduces the `updateMissingNoUpsert: matched 1, modified 0`
output captured in the repository's own command-line transcript. -/
theorem stepB_rerun_matches :
    (runUpdateUpsertDemo (runUpdateUpsertDemo [] 5 1 2).2 6 3 4).1.updateMissingNoUpsert.matched
      = 1 := by decide

/-- C1 amended: Step B's filter matches nothing only when the persistent
store holds no `missing@example.com` contact (e.g. a fresh store), and
then its reported result is `matched=0, modified=0, upsertedId` absent;
when the store already holds that contact (as it does after any
completed run, since Step C creates it), Step B reports `matched=1`.
Every run leaves the store with at least one `missing@example.com`
contact. -/
theorem stepB_zero_only_on_fresh_store (col : List StoredDoc) (now seedId upsertId : Nat) :
    (matchCount col "missing@example.com" = 0 →
      (runUpdateUpsertDemo col now seedId upsertId).1.updateMissingNoUpsert =
        { matched := 0, modified := 0, upsertedId := none }) ∧
    (0 < matchCount col "missing@example.com" →
      (runUpdateUpsertDemo col now seedId upsertId).1.updateMissingNoUpsert.matched = 1) ∧
    0 < matchCount (runUpdateUpsertDemo col now seedId upsertId).2 "missing@example.com" := by
  have hseed : matchCount (updateOne col "aarti@shade.org.in" demoSeedSpec true seedId).1
      "missing@example.com" = matchCount col "missing@example.com" :=
    updateOne_matchCount_ne col "aarti@shade.org.in" demoSeedSpec true seedId
      "missing@example.com" rfl (by decide)
  have hA : matchCount (updateOne
        (updateOne col "aarti@shade.org.in" demoSeedSpec true seedId).1
        "aarti@shade.org.in" demoStepASpec false 0).1 "missing@example.com" =
      matchCount (updateOne col "aarti@shade.org.in" demoSeedSpec true seedId).1
        "missing@example.com" :=
    updateOne_matchCount_ne _ "aarti@shade.org.in" demoStepASpec false 0
      "missing@example.com" rfl (by decide)
  refine ⟨fun h0 => ?_, fun hpos => ?_, ?_⟩
  · simp only [runUpdateUpsertDemo]
    exact (condUpdate_noop _ _ _ _ (by rw [hA, hseed]; exact h0)).2
  · simp only [runUpdateUpsertDemo, normalize_matched, updateOne_matchedCount]
    rw [hA, hseed]
    rw [if_pos hpos]
  · simp only [runUpdateUpsertDemo]
    exact updateOne_upsert_matchCount_pos _ "missing@example.com" (demoStepCSpec now)
      upsertId rfl rfl

/-- Witness for the amended C1: on the empty store the first run's Step B
is all zeroes, and the run leaves a `missing@example.com` contact
behind. -/
theorem stepB_zero_only_on_fresh_store_witness :
    (runUpdateUpsertDemo [] 5 1 2).1.updateMissingNoUpsert =
      { matched := 0, modified := 0, upsertedId := none } ∧
    0 < matchCount (runUpdateUpsertDemo [] 5 1 2).2 "missing@example.com" :=
  ⟨(stepB_zero_only_on_fresh_store [] 5 1 2).1 (by decide),
   (stepB_zero_only_on_fresh_store [] 5 1 2).2.2⟩

/-- C5 counterexample: `tags` is an insert-only field of Step C's
creation path (`$setOnInsert: { createdAt, tags }`), yet a later
`POST /upsert-contact` that matches the same document (`matched=1`)
overwrites it via its `$set`, changing the stored tags from
`["Prospect"]` to `["Donor"]`.  So not every insert-only field remains
unchanged by later matching Upsert calls. -/
theorem insertOnly_tags_overwritten_by_later_upsert :
    ((updateOne [] "missing@example.com" (demoStepCSpec 5) true 7).1.map
        (fun d => d.doc.tags)) = [some ["Prospect"]] ∧
    ((upsertContact
        (some { email := some (.str "missing@example.com"), tags := some (.arr ["Donor"]) })
        (updateOne [] "missing@example.com" (demoStepCSpec 5) true 7).1
        9 9 8).1.result.map (fun r => r.matched)) = some 1 ∧
    ((upsertContact
        (some { email := some (.str "missing@example.com"), tags := some (.arr ["Donor"]) })
        (updateOne [] "missing@example.com" (demoStepCSpec 5) true 7).1
        9 9 8).2.map (fun d => d.doc.tags)) = [some ["Donor"]] := by decide

/-- C5 amended: `createdAt` is assigned at creation time (every insert
path of the system sets it to the creation timestamp when the update
document mentions it) and is never altered afterwards: no `$set`
document used anywhere in the system — the demo's seed and Steps A, B,
C, `/upsert-contact`'s `$set`, or the three `/insert-sample` bulk ops —
mentions `createdAt`, so applying any of them to an existing document
preserves its `createdAt`.  (Other `$setOnInsert` fields, such as
`tags`, do not enjoy this: see the counterexample.) -/
theorem createdAt_set_once (c : Contact) :
    (∀ b ns, (applySet (ucSetDoc b ns) c).createdAt = c.createdAt) ∧
    (applySet demoSeedSpec.set c).createdAt = c.createdAt ∧
    (applySet demoStepASpec.set c).createdAt = c.createdAt ∧
    (applySet demoStepBSpec.set c).createdAt = c.createdAt ∧
    (∀ now, (applySet (demoStepCSpec now).set c).createdAt = c.createdAt) ∧
    (∀ now, (applySet (sampleSpec1 now).set c).createdAt = c.createdAt) ∧
    (∀ now, (applySet (sampleSpec2 now).set c).createdAt = c.createdAt) ∧
    (∀ now, (applySet (sampleSpec3 now).set c).createdAt = c.createdAt) ∧
    (∀ e b ns ni, (insertedDoc e
        { set := ucSetDoc b ns, setOnInsert := { createdAt := some ni } }).createdAt = some ni) ∧
    (∀ e now, (insertedDoc e (demoStepCSpec now)).createdAt = some now) ∧
    (∀ e now, (insertedDoc e (sampleSpec1 now)).createdAt = some now) :=
  ⟨fun _ _ => rfl, rfl, rfl, rfl, fun _ => rfl, fun _ => rfl, fun _ => rfl, fun _ => rfl,
   fun _ _ _ _ => rfl, fun _ _ => rfl, fun _ _ => rfl⟩

/-- C6 counterexample: the demo orchestrator's Step A is a mutating
write that is not insert-only (it reports `modified=1` on a fresh
store), yet after the whole run no stored document has an `updatedAt`
value — the orchestrator's `$set` documents never include `updatedAt`. -/
theorem demo_updates_do_not_set_updatedAt :
    (runUpdateUpsertDemo [] 5 1 2).1.updateExisting.modified = 1 ∧
    (runUpdateUpsertDemo [] 5 1 2).2.map (fun d => d.doc.updatedAt) = [none, none] := by decide

/-- C6 amended: only `POST /upsert-contact` stamps `updatedAt` — its
`$set` document always contains `updatedAt` — while every other mutating
write in the system (the demo's seed and Steps A, B, C, and the
`/insert-sample` bulk ops) leaves `updatedAt` unmentioned. -/
theorem updatedAt_only_in_upsertContact (b : ReqBody) (ns now : Nat) :
    (ucSetDoc b ns).updatedAt = some ns ∧
    demoSeedSpec.set.updatedAt = none ∧
    demoStepASpec.set.updatedAt = none ∧
    demoStepBSpec.set.updatedAt = none ∧
    (demoStepCSpec now).set.updatedAt = none ∧
    (sampleSpec1 now).set.updatedAt = none ∧
    (sampleSpec2 now).set.updatedAt = none ∧
    (sampleSpec3 now).set.updatedAt = none :=
  ⟨rfl, rfl, rfl, rfl, rfl, rfl, rfl, rfl⟩

/-- C7 counterexample: a non-numeric `page` value is not clamped to at
least 1 — `parseInt("abc", 10)` is `NaN`, `Math.max(1, NaN)` is `NaN`
(modelled as `none`), and the request fails instead of producing a
page. -/
theorem listPage_nan_not_clamped :
    effectivePage (some "abc") = none ∧
    listContacts [⟨1, { email := "a@x" }⟩] { page := some "abc" } = none := by decide

/-- C7 amended: whenever the `page` and `pageSize` query values parse to
numbers (which includes absent, empty, zero, negative and over-large
values — but not non-numeric strings, which yield `NaN` and a failed
request), the effective page is clamped to at least 1, the effective
page size is clamped into [1, 100], and the response carries the total
count of documents matching the filter plus at most `pageSize` documents
that all match the filter, are drawn from the collection with the
internal storage key excluded, and are sorted by email ascending. -/
theorem listPage_clamped (col : List StoredDoc) (q : ListQuery) (p ps : Int)
    (hp : effectivePage q.page = some p) (hps : effectivePageSize q.pageSize = some ps) :
    1 ≤ p ∧ 1 ≤ ps ∧ ps ≤ 100 ∧
    ∃ res, listContacts col q = some res ∧ res.page = p ∧ res.pageSize = ps ∧
      res.total = (col.filter (fun d =>
        matchesListFilter ((q.city.getD "").trim) ((q.tag.getD "").trim) d.doc)).length ∧
      res.docs.length ≤ ps.toNat ∧
      res.docs.Pairwise (fun a b => a.email ≤ b.email) ∧
      ∀ c ∈ res.docs,
        matchesListFilter ((q.city.getD "").trim) ((q.tag.getD "").trim) c = true ∧
        ∃ sd ∈ col, sd.doc = c := by
  obtain ⟨n, hn, hpn⟩ := Option.map_eq_some'.mp hp
  obtain ⟨m, hm, hpm⟩ := Option.map_eq_some'.mp hps
  have h1p : 1 ≤ p := hpn ▸ le_max_left 1 n
  have h1ps : 1 ≤ ps := hpm ▸ le_min (by norm_num) (le_max_left 1 m)
  have h100 : ps ≤ 100 := hpm ▸ min_le_left 100 (max 1 m)
  have hres : listContacts col q =
      some { page := p, pageSize := ps
             total := (col.filter (fun d =>
               matchesListFilter ((q.city.getD "").trim) ((q.tag.getD "").trim) d.doc)).length
             docs := (((sortByEmail (col.filter (fun d =>
                 matchesListFilter ((q.city.getD "").trim) ((q.tag.getD "").trim) d.doc))).drop
               ((p - 1) * ps).toNat).take ps.toNat).map StoredDoc.doc } := by
    simp only [listContacts, hp, hps]
  refine ⟨h1p, h1ps, h100, ?_⟩
  rw [hres]
  refine ⟨_, rfl, rfl, rfl, rfl, ?_, ?_, ?_⟩
  · rw [List.length_map, List.length_take]
    exact min_le_left _ _
  · rw [List.pairwise_map]
    have hsorted : (sortByEmail (col.filter (fun d =>
        matchesListFilter ((q.city.getD "").trim) ((q.tag.getD "").trim) d.doc))).Pairwise
        emailLe :=
      List.sorted_insertionSort emailLe _
    exact hsorted.sublist ((List.take_sublist _ _).trans (List.drop_sublist _ _))
  · intro c hc
    obtain ⟨sd, hsd, hsdc⟩ := List.mem_map.mp hc
    have h1 : sd ∈ sortByEmail (col.filter (fun d =>
        matchesListFilter ((q.city.getD "").trim) ((q.tag.getD "").trim) d.doc)) :=
      List.mem_of_mem_drop (List.mem_of_mem_take hsd)
    have h2 : sd ∈ col.filter (fun d =>
        matchesListFilter ((q.city.getD "").trim) ((q.tag.getD "").trim) d.doc) :=
      (List.mem_insertionSort emailLe).mp h1
    obtain ⟨hcol, hpred⟩ := List.mem_filter.mp h2
    exact ⟨hsdc ▸ hpred, sd, hcol, hsdc⟩

/-- Witness for the amended C7: `page=0` is clamped up to 1 and
`pageSize=500` is clamped down to 100 on a two-document collection. -/
theorem listPage_clamped_witness :
    (1 : Int) ≤ 1 ∧ (1 : Int) ≤ 100 ∧ (100 : Int) ≤ 100 ∧
    ∃ res, listContacts [⟨1, { email := "b@x" }⟩, ⟨2, { email := "a@x" }⟩]
        { page := some "0", pageSize := some "500" } = some res ∧
      res.page = 1 ∧ res.pageSize = 100 ∧
      res.total = (([⟨1, { email := "b@x" }⟩, ⟨2, { email := "a@x" }⟩] : List StoredDoc).filter (fun d =>
        matchesListFilter ((({ page := some "0", pageSize := some "500" } : ListQuery).city.getD
          "").trim) ((({ page := some "0", pageSize := some "500" } : ListQuery).tag.getD
          "").trim) d.doc)).length ∧
      res.docs.length ≤ (100 : Int).toNat ∧
      res.docs.Pairwise (fun a b => a.email ≤ b.email) ∧
      ∀ c ∈ res.docs,
        matchesListFilter ((({ page := some "0", pageSize := some "500" } : ListQuery).city.getD
          "").trim) ((({ page := some "0", pageSize := some "500" } : ListQuery).tag.getD
          "").trim) c = true ∧
        ∃ sd ∈ ([⟨1, { email := "b@x" }⟩, ⟨2, { email := "a@x" }⟩] : List StoredDoc), sd.doc = c :=
  listPage_clamped [⟨1, { email := "b@x" }⟩, ⟨2, { email := "a@x" }⟩]
    { page := some "0", pageSize := some "500" } 1 100 (by decide) (by decide)

/-- A falsy (or absent) email makes `POST /upsert-contact` answer the
400 error without touching the collection (helper shared by several
claims). -/
theorem upsertContact_rejects (body : Option ReqBody) (col : List StoredDoc) (ns ni f : Nat)
    (h : emailTruthyB body = false) :
    upsertContact body col ns ni f = (emailRequiredResp, col) := by
  unfold emailTruthyB at h
  unfold upsertContact
  cases hv : emailOf body with
  | none => rfl
  | some v =>
      rw [hv] at h
      have h' : truthy v = false := h
      simp [h']

/-- A truthy email makes `POST /upsert-contact` perform the upsert and
answer 200 (helper shared by several claims). -/
theorem upsertContact_accepted (body : Option ReqBody) (col : List StoredDoc) (ns ni f : Nat)
    (h : emailTruthyB body = true) :
    (upsertContact body col ns ni f).1.status = 200 ∧
    (upsertContact body col ns ni f).1.ok = true ∧
    (upsertContact body col ns ni f).1.error = none ∧
    (upsertContact body col ns ni f).1.result =
      some ⟨(updateOne col (emailKeyOf body)
          { set := ucSetDoc (body.getD {}) ns, setOnInsert := { createdAt := some ni } }
          true f).2.matchedCount,
        (updateOne col (emailKeyOf body)
          { set := ucSetDoc (body.getD {}) ns, setOnInsert := { createdAt := some ni } }
          true f).2.modifiedCount,
        (updateOne col (emailKeyOf body)
          { set := ucSetDoc (body.getD {}) ns, setOnInsert := { createdAt := some ni } }
          true f).2.upsertedId⟩ ∧
    (upsertContact body col ns ni f).2 =
      (updateOne col (emailKeyOf body)
        { set := ucSetDoc (body.getD {}) ns, setOnInsert := { createdAt := some ni } }
        true f).1 := by
  unfold emailTruthyB at h
  have hk0 : ∀ w, emailOf body = some w → emailKeyOf body = emailKey w := by
    intro w hw
    unfold emailKeyOf
    rw [hw]
  cases hv : emailOf body with
  | none =>
      rw [hv] at h
      exact Bool.noConfusion h
  | some v =>
      rw [hv] at h
      have h' : truthy v = true := h
      rw [hk0 v hv]
      unfold upsertContact
      rw [hv]
      simp [h']

/-- C8 counterexample: a request whose body *provides* an email (the
field is present, holding the empty string) is still answered with the
400 "email is required" response and performs no upsert — so "when email
is provided it performs the upsert and returns ok:true" fails as
stated. -/
theorem provided_empty_email_rejected :
    upsertContact (some { email := some (.str "") }) [] 3 4 5 = (emailRequiredResp, []) ∧
    emailRequiredResp.status = 400 ∧ emailRequiredResp.ok = false ∧
    emailRequiredResp.error = some "email is required" := by decide

/-- C8 amended: a falsy email — absent field, missing body, or a
provided falsy value such as the empty string — is answered with exactly
the 400 `{ok:false, error:"email is required"}` response and no write is
performed; a truthy email reaches the write path: the handler performs
the upsert and answers 200 `{ok:true, result:...}`, and when no document
matched the filter the write grows the collection by exactly one
document and reports the fresh `upsertedId`. -/
theorem upsertContact_validation_then_write (body : Option ReqBody) (col : List StoredDoc)
    (ns ni f : Nat) :
    (emailTruthyB body = false →
      upsertContact body col ns ni f = (emailRequiredResp, col) ∧
      emailRequiredResp.status = 400 ∧ emailRequiredResp.ok = false ∧
      emailRequiredResp.error = some "email is required") ∧
    (emailTruthyB body = true →
      (upsertContact body col ns ni f).1.status = 200 ∧
      (upsertContact body col ns ni f).1.ok = true ∧
      (upsertContact body col ns ni f).1.error = none ∧
      (upsertContact body col ns ni f).1.result.isSome = true) ∧
    (emailTruthyB body = true → matchCount col (emailKeyOf body) = 0 →
      (upsertContact body col ns ni f).2.length = col.length + 1 ∧
      (upsertContact body col ns ni f).1.result = some ⟨0, 0, some f⟩) := by
  refine ⟨fun h => ⟨upsertContact_rejects body col ns ni f h, rfl, rfl, rfl⟩,
    fun h => ?_, fun h h0 => ?_⟩
  · obtain ⟨h1, h2, h3, h4, _⟩ := upsertContact_accepted body col ns ni f h
    exact ⟨h1, h2, h3, by rw [h4]; rfl⟩
  · obtain ⟨_, _, _, h4, h5⟩ := upsertContact_accepted body col ns ni f h
    have hm := (updateFirst_snd_none_iff (emailKeyOf body)
      (ucSetDoc (body.getD {}) ns) col).mpr h0
    have hup := updateOne_of_none_upsert col (emailKeyOf body)
      { set := ucSetDoc (body.getD {}) ns, setOnInsert := { createdAt := some ni } } f hm
    constructor
    · rw [h5, hup]
      simp
    · rw [h4, hup]

/-- Witness for the amended C8: upserting a fresh truthy email into the
empty collection inserts one document and reports its id. -/
theorem upsertContact_validation_then_write_witness :
    (upsertContact (some { email := some (.str "n@x") }) [] 7 8 9).2.length =
      ([] : List StoredDoc).length + 1 ∧
    (upsertContact (some { email := some (.str "n@x") }) [] 7 8 9).1.result =
      some ⟨0, 0, some 9⟩ :=
  (upsertContact_validation_then_write (some { email := some (.str "n@x") }) [] 7 8 9).2.2
    (by decide) (by decide)

/-- C9: `POST /upsert-contact` answers the 400 "email is required"
response (leaving the collection untouched) for every falsy email — the
empty string, null, 0, false are all falsy, as is an absent field or a
missing body — and only a truthy email reaches the write path, which
then answers ok:true with status 200. -/
theorem falsy_email_always_rejected (body : Option ReqBody) (col : List StoredDoc)
    (ns ni f : Nat) :
    (emailTruthyB body = false → upsertContact body col ns ni f = (emailRequiredResp, col)) ∧
    truthy (.str "") = false ∧ truthy .null = false ∧ truthy (.num 0) = false ∧
    truthy (.bool false) = false ∧ emailTruthyB none = false ∧
    (emailTruthyB body = true →
      (upsertContact body col ns ni f).1.ok = true ∧
      (upsertContact body col ns ni f).1.status = 200) := by
  refine ⟨fun h => upsertContact_rejects body col ns ni f h,
    by decide, by decide, by decide, by decide, rfl, fun h => ?_⟩
  obtain ⟨h1, h2, _⟩ := upsertContact_accepted body col ns ni f h
  exact ⟨h2, h1⟩

/-- Witness for C9: a body carrying the falsy email `0` is rejected with
the 400 response and the collection is untouched. -/
theorem falsy_email_always_rejected_witness :
    upsertContact (some { email := some (.num 0) }) [⟨1, { email := "a" }⟩] 1 2 3 =
      (emailRequiredResp, [⟨1, { email := "a" }⟩]) :=
  (falsy_email_always_rejected (some { email := some (.num 0) })
    [⟨1, { email := "a" }⟩] 1 2 3).1 (by decide)

/-- C10: falsy optional fields (empty-string name or city) and a
non-array tags value are silently omitted from the `$set` document built
by `POST /upsert-contact`, which then contains only `updatedAt`;
consequently applying that update to any matched document changes
nothing but its `updatedAt`. -/
theorem falsy_optional_fields_omitted (b : ReqBody) (ns : Nat)
    (hn : b.name = none ∨ b.name = some "") (hc : b.city = none ∨ b.city = some "")
    (ht : ∀ xs, b.tags ≠ some (.arr xs)) :
    (ucSetDoc b ns).name = none ∧ (ucSetDoc b ns).city = none ∧
    (ucSetDoc b ns).tags = none ∧ (ucSetDoc b ns).updatedAt = some ns ∧
    ∀ c : Contact, applySet (ucSetDoc b ns) c = { c with updatedAt := some ns } := by
  have hn' : strField b.name = none := by
    rcases hn with h | h <;> simp [strField, h]
  have hc' : strField b.city = none := by
    rcases hc with h | h <;> simp [strField, h]
  have ht' : arrField b.tags = none := by
    cases hbt : b.tags with
    | none => rfl
    | some v =>
        cases v with
        | str s => rfl
        | num n => rfl
        | bool bb => rfl
        | null => rfl
        | arr xs => exact absurd hbt (ht xs)
  refine ⟨?_, ?_, ?_, rfl, ?_⟩
  · simp [ucSetDoc, hn']
  · simp [ucSetDoc, hc']
  · simp [ucSetDoc, ht']
  · intro c
    simp [ucSetDoc, hn', hc', ht', applySet, setField]

/-- Witness for C10: empty-string name and city plus a numeric tags
value leave a stored contact's name, city and tags untouched while
stamping `updatedAt`. -/
theorem falsy_optional_fields_omitted_witness :
    applySet (ucSetDoc
        { email := some (.str "e@x"), name := some "", city := some "", tags := some (.num 3) } 7)
      { email := "e@x", name := some "N", city := some "C", tags := some ["T"],
        createdAt := some 1 } =
    { email := "e@x", name := some "N", city := some "C", tags := some ["T"],
      createdAt := some 1, updatedAt := some 7 } :=
  (falsy_optional_fields_omitted
    { email := some (.str "e@x"), name := some "", city := some "", tags := some (.num 3) } 7
    (Or.inr rfl) (Or.inr rfl) (by simp)).2.2.2.2
    { email := "e@x", name := some "N", city := some "C", tags := some ["T"],
      createdAt := some 1 }
